import Mathlib

/-!
Verification of the private-transfer-assignment repository: a shallow
embedding of its commitment codec, authenticator, relayer pipeline,
ledger contract and confirmation check, with theorems settling the
specification claims against the code.

Bytes are modelled as `Nat` values below 256, byte strings as `List Nat`.
The keccak256 hash is an external cryptographic primitive; every
definition that hashes is parameterised by a function
`keccak : List Nat → List Nat` standing for it, so theorems hold for the
real hash by instantiation.
-/

namespace PrivTransfer

/-- A transfer record as built by demo.js, relayer.js and the Sepolia
test script: sender and recipient addresses (byte strings), amount and
timestamp as unsigned integers. -/
structure TransferRecord where
  sender : List Nat
  recipient : List Nat
  amount : Nat
  timestamp : Nat
deriving DecidableEq

/-- Errors raised locally by the ABI coder (ethers
`defaultAbiCoder.encode`) while building a commitment: an address value
that is not exactly 20 bytes, or a uint256 value out of range. -/
inductive CodecError where
  | invalidAddress : CodecError
  | amountOverflow : CodecError
deriving DecidableEq

/-- An address value is valid when it is exactly 20 bytes (ethers
`getAddress` rejects anything else). -/
def validAddress (a : List Nat) : Bool :=
  a.length == 20 && a.all (fun b => b < 256)

/-- Big-endian byte representation of `n` in exactly `len` bytes. -/
def natToBytesBE : Nat → Nat → List Nat
  | 0, _ => []
  | len + 1, n => natToBytesBE len (n / 256) ++ [n % 256]

/-- A 32-byte ABI word: the big-endian 256-bit representation. -/
def word (n : Nat) : List Nat := natToBytesBE 32 n

/-- ABI head-encoding of an address: 12 zero bytes of left padding
followed by the 20 address bytes. -/
def encAddress (a : List Nat) : List Nat := List.replicate 12 0 ++ a

/-- ethers `defaultAbiCoder.encode(["address","address","uint256","uint256"],
[sender, recipient, amount, timestamp])` as called identically in
relayer.js, demo.js, demo-complete-flow.js and test-sepolia.js: each
value is validated and encoded in field order, so the first malformed
field determines the error. -/
def abiEncode (r : TransferRecord) : Except CodecError (List Nat) :=
  if validAddress r.sender = true then
    if validAddress r.recipient = true then
      if r.amount < 2 ^ 256 then
        if r.timestamp < 2 ^ 256 then
          Except.ok (encAddress r.sender ++ encAddress r.recipient ++
            word r.amount ++ word r.timestamp)
        else Except.error CodecError.amountOverflow
      else Except.error CodecError.amountOverflow
    else Except.error CodecError.invalidAddress
  else Except.error CodecError.invalidAddress

/-- relayer.js `createCommitment`: keccak256 of the ABI encoding of
(sender, recipient, amount, timestamp). -/
def createCommitment (keccak : List Nat → List Nat) (r : TransferRecord) :
    Except CodecError (List Nat) :=
  (abiEncode r).map keccak

/-- demo.js `signPayload`, commitment part: the user side encodes the
same four fields with the same type list and hashes with keccak256,
producing `messageHash`. -/
def signPayloadHash (keccak : List Nat → List Nat) (r : TransferRecord) :
    Except CodecError (List Nat) :=
  (abiEncode r).map keccak

/-- A record all of whose fields are in range: both addresses are
20 bytes and amount and timestamp fit in a uint256. -/
def validRecord (r : TransferRecord) : Bool :=
  validAddress r.sender && validAddress r.recipient &&
    decide (r.amount < 2 ^ 256) && decide (r.timestamp < 2 ^ 256)

/-- Hardhat account #0 address 0xf39fd6e51aad88f6f4ce6ab8827279cfffb92266,
the hardcoded sender in demo.js and relayer.js. -/
def account0 : List Nat :=
  [0xf3, 0x9f, 0xd6, 0xe5, 0x1a, 0xad, 0x88, 0xf6, 0xf4, 0xce,
   0x6a, 0xb8, 0x82, 0x72, 0x79, 0xcf, 0xff, 0xb9, 0x22, 0x66]

/-- Hardhat account #1 address 0x70997970c51812dc3a010c7d01b50e0d17dc79c8,
the hardcoded recipient in demo.js and relayer.js. -/
def account1 : List Nat :=
  [0x70, 0x99, 0x79, 0x70, 0xc5, 0x18, 0x12, 0xdc, 0x3a, 0x01,
   0x0c, 0x7d, 0x01, 0xb5, 0x0e, 0x0d, 0x17, 0xdc, 0x79, 0xc8]

/-- The mock payload hardcoded in relayer.js (`encryptedPayload`) and
demo.js (`payload`): accounts #0 and #1, amount 1000, timestamp
`Date.now()` (passed in as `nowMs`). -/
def encryptedPayload (nowMs : Nat) : TransferRecord :=
  { sender := account0, recipient := account1, amount := 1000, timestamp := nowMs }

/-- A stand-in hash used only to evaluate the pipeline at concrete
inputs in witnesses: it maps every byte string to 32 zero bytes. -/
def keccak0 : List Nat → List Nat := fun _ => List.replicate 32 0

theorem abiEncode_valid (r : TransferRecord) (h : validRecord r = true) :
    abiEncode r = Except.ok (encAddress r.sender ++ encAddress r.recipient ++
      word r.amount ++ word r.timestamp) := by
  simp only [validRecord, Bool.and_eq_true, decide_eq_true_eq] at h
  obtain ⟨⟨⟨h1, h2⟩, h3⟩, h4⟩ := h
  unfold abiEncode
  rw [if_pos h1, if_pos h2, if_pos h3, if_pos h4]

/-- C1: the commitment is a deterministic pure function of the record:
for every valid record, `createCommitment` (relayer.js) returns keccak256
of the fixed-order ABI encoding (address, address, uint256, uint256) of
its fields, it is a 32-byte value whenever the hash yields 32 bytes, and
the independent implementation in demo.js (`signPayload`) computes the
very same value on equal records. -/
theorem c1_commitment_deterministic (keccak : List Nat → List Nat)
    (r : TransferRecord) (h : validRecord r = true)
    (hk : ∀ bs, (keccak bs).length = 32) :
    createCommitment keccak r =
      Except.ok (keccak (encAddress r.sender ++ encAddress r.recipient ++
        word r.amount ++ word r.timestamp))
    ∧ createCommitment keccak r = signPayloadHash keccak r
    ∧ ∀ c, createCommitment keccak r = Except.ok c → c.length = 32 := by
  refine ⟨?_, rfl, ?_⟩
  · simp [createCommitment, abiEncode_valid r h, Except.map]
  · intro c hc
    simp [createCommitment, abiEncode_valid r h, Except.map] at hc
    rw [← hc]
    exact hk _

theorem c1_witness :
    validRecord (encryptedPayload 1700000000000) = true
    ∧ createCommitment keccak0 (encryptedPayload 1700000000000) =
        signPayloadHash keccak0 (encryptedPayload 1700000000000) := by
  refine ⟨by decide, ?_⟩
  exact (c1_commitment_deterministic keccak0 (encryptedPayload 1700000000000)
    (by decide) (fun bs => rfl)).2.1

/-!
Idealized model of the ethers message-signing API used by demo.js
(`wallet.signMessage`) and demo-complete-flow.js
(`ethers.utils.verifyMessage`). An ECDSA signature is abstracted as the
pair of the signing key and the signed message bytes; the address of a
key is an abstract map `addrOf : Nat → List Nat` supplied as a
parameter. Recovery over the message that was actually signed yields
the signer's address; recovery of a signature over any other message
yields, with overwhelming probability, an address related to no party —
modelled as a distinguished 21-byte value that no 20-byte address
equals. -/

/-- An ECDSA signature, symbolically: the signing key together with the
message bytes it was produced over (the EIP-191 prefixing applied by
both signMessage and verifyMessage cancels and is left implicit). -/
structure Signature where
  key : Nat
  msg : List Nat
deriving DecidableEq

/-- `wallet.signMessage(bytes)` (demo.js line 26, demo-complete-flow.js
line 122): sign the given bytes with the wallet's key. -/
def signMessage (key : Nat) (msg : List Nat) : Signature := ⟨key, msg⟩

/-- Recovery result for a signature checked against a message it did
not sign: some address unrelated to any party (21 bytes, hence
distinct from every valid 20-byte address). -/
def unrelatedAddress : List Nat := List.replicate 21 0

/-- `ethers.utils.verifyMessage(bytes, signature)`
(demo-complete-flow.js line 131): recovers the signing address. If the
signature was produced over exactly these bytes the signer's address is
recovered; otherwise recovery yields an unrelated address. -/
def verifyMessage (addrOf : Nat → List Nat) (msg : List Nat)
    (s : Signature) : List Nat :=
  if s.msg = msg then addrOf s.key else unrelatedAddress

/-- The relayer's signature check (demo-complete-flow.js lines
130-133): recompute the commitment of the record, recover the signer
from the signature over it, and compare with the record's sender. -/
def authenticate (addrOf : Nat → List Nat) (keccak : List Nat → List Nat)
    (r : TransferRecord) (s : Signature) : Bool :=
  match createCommitment keccak r with
  | Except.ok c => decide (verifyMessage addrOf c s = r.sender)
  | Except.error _ => false

theorem validAddress_length {a : List Nat} (h : validAddress a = true) :
    a.length = 20 := by
  simp only [validAddress, Bool.and_eq_true, beq_iff_eq] at h
  exact h.1

/-- C3: authenticity round-trip. For a valid record whose sender is the
address of key `k`: signing the commitment with `k` authenticates;
a signature over the commitment by a key whose address is not the
sender does not authenticate; and a signature by the sender's own key
over any other message does not authenticate. -/
theorem c3_authenticity (addrOf : Nat → List Nat)
    (keccak : List Nat → List Nat) (r : TransferRecord) (k : Nat)
    (c : List Nat) (hr : validRecord r = true)
    (hc : createCommitment keccak r = Except.ok c)
    (hk : addrOf k = r.sender) :
    authenticate addrOf keccak r (signMessage k c) = true
    ∧ (∀ k2, addrOf k2 ≠ r.sender →
        authenticate addrOf keccak r (signMessage k2 c) = false)
    ∧ (∀ m, m ≠ c →
        authenticate addrOf keccak r (signMessage k m) = false) := by
  have hsender : validAddress r.sender = true := by
    simp only [validRecord, Bool.and_eq_true, decide_eq_true_eq] at hr
    exact hr.1.1.1
  refine ⟨?_, ?_, ?_⟩
  · simp [authenticate, hc, verifyMessage, signMessage, hk]
  · intro k2 hk2
    simp [authenticate, hc, verifyMessage, signMessage, hk2]
  · intro m hm
    have hlen : unrelatedAddress ≠ r.sender := by
      intro heq
      have : (20 : Nat) = 21 := by
        rw [← validAddress_length hsender, ← heq]
        rfl
      exact absurd this (by decide)
    simp [authenticate, hc, verifyMessage, signMessage, hm, hlen]

/-- A concrete key-to-address map for evaluating the authenticator:
key 0 owns the demo sender address, every other key an address derived
from its value. -/
def addrOf0 : Nat → List Nat :=
  fun k => if k = 0 then account0 else natToBytesBE 20 k

theorem c3_witness :
    authenticate addrOf0 keccak0 (encryptedPayload 1700000000000)
      (signMessage 0 (List.replicate 32 0)) = true :=
  (c3_authenticity addrOf0 keccak0 (encryptedPayload 1700000000000) 0
    (List.replicate 32 0) (by decide) (by rfl) (by rfl)).1

/-!
Relayer pipeline. relayer.js `main` runs, in order: deploy the
contract, decrypt the payload (identity in the simulation), create the
commitment, submit it via `submitCommitment`. No signature is received
and no verification of any kind is performed. demo-complete-flow.js, by
contrast, verifies the user's signature over the commitment and throws
before submitting when verification fails. Both are embedded as traces
of observable pipeline actions drawn from a common action vocabulary
that includes an authentication step, so its absence is expressible. -/

/-- Observable pipeline actions: contract deployment, payload
decryption, a signature-verification step with its outcome, and a
ledger submission carrying the submitted bytes. -/
inductive PAction where
  | deploy : PAction
  | decrypt : PAction
  | authStep : Bool → PAction
  | submit : List Nat → PAction
deriving DecidableEq

/-- Whether a trace contains an authentication step that returned true. -/
def hasAuthOk (tr : List PAction) : Bool :=
  tr.any (fun a => match a with | PAction.authStep ok => ok | _ => false)

/-- Whether a trace contains any authentication step at all. -/
def hasAuthStep (tr : List PAction) : Bool :=
  tr.any (fun a => match a with | PAction.authStep _ => true | _ => false)

/-- Whether a trace contains a ledger submission. -/
def hasSubmit (tr : List PAction) : Bool :=
  tr.any (fun a => match a with | PAction.submit _ => true | _ => false)

/-- relayer.js `main` (lines 73-96), as the trace of pipeline actions it
performs: deploy, decrypt the hardcoded payload, create the commitment,
submit it. There is no signature input and no verification step. -/
def relayerMain (keccak : List Nat → List Nat) (nowMs : Nat) :
    Except CodecError (List PAction) :=
  (createCommitment keccak (encryptedPayload nowMs)).map
    (fun c => [PAction.deploy, PAction.decrypt, PAction.submit c])

/-- Errors terminating the demo-complete-flow.js relayer portion. -/
inductive FlowError where
  | codec : CodecError → FlowError
  | invalidSignature : FlowError
deriving DecidableEq

/-- The relayer portion of demo-complete-flow.js `main` (lines
126-146), as a function of the received record and signature: recompute
the commitment, recover the signer via `verifyMessage` and compare with
the record's sender; on success submit the commitment, on failure throw
`Invalid signature` before any submission. Returns the actions
performed and the terminating error, if any. -/
def completeFlowRelayer (addrOf : Nat → List Nat)
    (keccak : List Nat → List Nat) (payload : TransferRecord)
    (s : Signature) : List PAction × Option FlowError :=
  match createCommitment keccak payload with
  | Except.error e => ([], some (FlowError.codec e))
  | Except.ok c =>
    if verifyMessage addrOf c s = payload.sender then
      ([PAction.authStep true, PAction.submit c], none)
    else
      ([PAction.authStep false], some FlowError.invalidSignature)

/-- C2 counterexample: relayer.js submits without ever authenticating.
At the hardcoded payload (with `Date.now()` = 1700000000000 ms) the
relayer pipeline's trace contains a ledger submission but no
authentication step, so "submitTransfer is called only after
authenticate(record, signature) has returned true" is false of
relayer.js. -/
theorem c2_counterexample :
    relayerMain keccak0 1700000000000 =
      Except.ok [PAction.deploy, PAction.decrypt,
        PAction.submit (List.replicate 32 0)]
    ∧ hasSubmit [PAction.deploy, PAction.decrypt,
        PAction.submit (List.replicate 32 0)] = true
    ∧ hasAuthStep [PAction.deploy, PAction.decrypt,
        PAction.submit (List.replicate 32 0)] = false := by
  refine ⟨?_, by decide, by decide⟩
  rfl

/-- C2 amended: in demo-complete-flow.js the relayer submits only after
signature verification succeeds — when recovery over the commitment
does not return the payload's sender, the pipeline stops with
`Invalid signature` and its trace contains no submission; relayer.js,
by contrast, performs no authentication at all. -/
theorem c2_amended_no_submit_without_auth (addrOf : Nat → List Nat)
    (keccak : List Nat → List Nat) (payload : TransferRecord)
    (s : Signature) (c : List Nat)
    (hc : createCommitment keccak payload = Except.ok c)
    (hbad : verifyMessage addrOf c s ≠ payload.sender) :
    completeFlowRelayer addrOf keccak payload s =
      ([PAction.authStep false], some FlowError.invalidSignature)
    ∧ hasSubmit (completeFlowRelayer addrOf keccak payload s).1 = false
    ∧ ∀ tr, completeFlowRelayer addrOf keccak payload s = (tr, none) →
        hasAuthOk tr = true := by
  have hres : completeFlowRelayer addrOf keccak payload s =
      ([PAction.authStep false], some FlowError.invalidSignature) := by
    simp [completeFlowRelayer, hc, hbad]
  refine ⟨hres, by rw [hres]; decide, ?_⟩
  intro tr htr
  rw [hres] at htr
  have hsnd : (some FlowError.invalidSignature : Option FlowError) = none :=
    congrArg Prod.snd htr
  exact absurd hsnd (by decide)

theorem c2_witness :
    completeFlowRelayer addrOf0 keccak0 (encryptedPayload 1700000000000)
      (signMessage 0 [1]) =
      ([PAction.authStep false], some FlowError.invalidSignature) :=
  (c2_amended_no_submit_without_auth addrOf0 keccak0
    (encryptedPayload 1700000000000) (signMessage 0 [1])
    (List.replicate 32 0) (by rfl) (by decide)).1

/-!
Privacy boundary. relayer.js `submitCommitment` receives only the
already-derived commitment — the record is not among its inputs — and
passes exactly those bytes to the contract's single entry point. -/

/-- A call made to the ledger collaborator: the contract's single entry
point `submitTransfer` with its 32-byte argument. -/
inductive LedgerCall where
  | submitTransfer : List Nat → LedgerCall
deriving DecidableEq

/-- The bytes a ledger call carries. -/
def callBytes : LedgerCall → List Nat
  | LedgerCall.submitTransfer c => c

/-- relayer.js `submitCommitment` (lines 49-71), ledger-facing part:
call `contract.submitTransfer(commitment)` with exactly the commitment
bytes it was given. -/
def submitCommitment (c : List Nat) : LedgerCall :=
  LedgerCall.submitTransfer c

/-- The complete list of ledger calls the relayer pipeline makes for a
record: the commitment is derived and passed to `submitCommitment`;
nothing else reaches the ledger. -/
def relayerLedgerCalls (keccak : List Nat → List Nat)
    (r : TransferRecord) : Except CodecError (List LedgerCall) :=
  (createCommitment keccak r).map (fun c => [submitCommitment c])

/-- Whether `needle` occurs as a contiguous segment of `hay`. -/
def containsSeg (needle hay : List Nat) : Bool :=
  (List.range (hay.length + 1)).any
    (fun i => decide ((hay.drop i).take needle.length = needle))

/-- C4: no-leak boundary. The only data the relayer passes to the
ledger is the 32-byte commitment: the pipeline's ledger calls for a
record consist of exactly one `submitTransfer` carrying the commitment
bytes; the calls depend on the record only through its hash (records
with equal commitments produce identical calls); and any byte segment
absent from the commitment — in particular sender, recipient or encoded
amount, unless the hash happens to contain it — is absent from every
submitted byte string. -/
theorem c4_no_leak (keccak : List Nat → List Nat) (r : TransferRecord)
    (c : List Nat) (hc : createCommitment keccak r = Except.ok c) :
    relayerLedgerCalls keccak r =
      Except.ok [LedgerCall.submitTransfer c]
    ∧ (∀ r2, createCommitment keccak r2 = createCommitment keccak r →
        relayerLedgerCalls keccak r2 = relayerLedgerCalls keccak r)
    ∧ (∀ field, containsSeg field c = false →
        ∀ call ∈ [LedgerCall.submitTransfer c],
          containsSeg field (callBytes call) = false) := by
  refine ⟨by simp [relayerLedgerCalls, hc, Except.map, submitCommitment], ?_, ?_⟩
  · intro r2 h2
    simp [relayerLedgerCalls, h2]
  · intro field hfield call hcall
    simp only [List.mem_singleton] at hcall
    rw [hcall]
    exact hfield

theorem c4_witness :
    relayerLedgerCalls keccak0 (encryptedPayload 1700000000000) =
      Except.ok [LedgerCall.submitTransfer (List.replicate 32 0)] :=
  (c4_no_leak keccak0 (encryptedPayload 1700000000000)
    (List.replicate 32 0) (by rfl)).1

/-- A record that is malformed in two ways at once: an empty sender
address and an amount one past the uint256 range. -/
def doublyBadRecord : TransferRecord :=
  { sender := [], recipient := account1, amount := 2 ^ 256,
    timestamp := 1700000000 }

/-- C6 counterexample: because the coder validates fields in order,
a record whose sender is not 20 bytes AND whose amount exceeds the
uint256 range fails with `InvalidAddress`, not `AmountOverflow` — so
"fails with AmountOverflow whenever record.amount exceeds the unsigned
256-bit range" is false as stated. -/
theorem c6_counterexample :
    (2 ^ 256 : Nat) ≤ doublyBadRecord.amount
    ∧ createCommitment keccak0 doublyBadRecord =
        Except.error CodecError.invalidAddress
    ∧ CodecError.invalidAddress ≠ CodecError.amountOverflow := by
  refine ⟨by decide, by rfl, by decide⟩

/-- C6 amended: commitment construction rejects malformed input
locally, with address validation taking precedence: if sender or
recipient is not exactly 20 valid bytes the result is `InvalidAddress`;
if both addresses are valid and the amount exceeds the uint256 range
the result is `AmountOverflow`; in either case the pipeline makes no
ledger call. -/
theorem c6_local_rejection (keccak : List Nat → List Nat)
    (r : TransferRecord) :
    (validAddress r.sender = false ∨ validAddress r.recipient = false →
      createCommitment keccak r = Except.error CodecError.invalidAddress
      ∧ relayerLedgerCalls keccak r =
          Except.error CodecError.invalidAddress)
    ∧ (validAddress r.sender = true → validAddress r.recipient = true →
        2 ^ 256 ≤ r.amount →
      createCommitment keccak r = Except.error CodecError.amountOverflow
      ∧ relayerLedgerCalls keccak r =
          Except.error CodecError.amountOverflow) := by
  constructor
  · intro hbad
    have henc : abiEncode r = Except.error CodecError.invalidAddress := by
      rcases hbad with h | h
      · unfold abiEncode
        rw [if_neg (by rw [h]; decide)]
      · unfold abiEncode
        by_cases hs : validAddress r.sender = true
        · rw [if_pos hs, if_neg (by rw [h]; decide)]
        · rw [if_neg hs]
    constructor
    · simp [createCommitment, henc, Except.map]
    · simp [relayerLedgerCalls, createCommitment, henc, Except.map]
  · intro hs hr hamt
    have henc : abiEncode r = Except.error CodecError.amountOverflow := by
      unfold abiEncode
      rw [if_pos hs, if_pos hr, if_neg (not_lt.mpr hamt)]
    constructor
    · simp [createCommitment, henc, Except.map]
    · simp [relayerLedgerCalls, createCommitment, henc, Except.map]

/-- A record whose addresses are valid but whose amount is out of
range. -/
def overflowRecord : TransferRecord :=
  { sender := account0, recipient := account1, amount := 2 ^ 256,
    timestamp := 1700000000 }

theorem c6_witness :
    createCommitment keccak0 doublyBadRecord =
      Except.error CodecError.invalidAddress
    ∧ createCommitment keccak0 overflowRecord =
        Except.error CodecError.amountOverflow :=
  ⟨((c6_local_rejection keccak0 doublyBadRecord).1 (Or.inl (by decide))).1,
   ((c6_local_rejection keccak0 overflowRecord).2 (by decide) (by decide)
     (by decide)).1⟩

/-!
The ledger collaborator: PrivateTransferVault.sol. The contract
declares no storage variables, no modifiers and no require/revert; its
single external function emits one `PrivateTransfer(bytes32 indexed
commitment)` event and returns nothing. EVM storage is modelled
explicitly as a slot map so that "writes no storage" is a statement,
and the return type is `Except` so that "never reverts" is one. -/

/-- EVM storage of the vault contract: a map from slots to words. The
contract declares no storage variables, so no slot is ever written. -/
def Storage : Type := Nat → Nat

/-- The event declared by PrivateTransferVault: `PrivateTransfer`
carrying only the 32-byte commitment. -/
inductive VaultEvent where
  | privateTransfer : List Nat → VaultEvent
deriving DecidableEq

/-- An EVM revert (the contract has no revert path of its own). -/
inductive EvmRevert where
  | reverted : EvmRevert
deriving DecidableEq

/-- PrivateTransferVault.submitTransfer (contract lines 139-146): emit
`PrivateTransfer(commitment)` and nothing else — no access-control
check, no storage write, no revert, no return value. -/
def submitTransfer (σ : Storage) (c : List Nat) :
    Except EvmRevert (Storage × List VaultEvent) :=
  Except.ok (σ, [VaultEvent.privateTransfer c])

/-- Receipt outcome of the confirmation check. -/
inductive Outcome where
  | matched : Outcome
  | mismatch : Outcome
deriving DecidableEq

/-- The confirmation verifier, as performed inline by test-sepolia.js
(lines 192-200): compare the commitment emitted in the receipt's event
with the locally derived one. -/
def verifyReceipt (expected emitted : List Nat) : Outcome :=
  if emitted = expected then Outcome.matched else Outcome.mismatch

/-- C5: ledger round-trip. For every commitment, `submitTransfer`
succeeds and emits exactly one event carrying the commitment
unmodified, and `verifyReceipt` yields `matched` if and only if the
emitted commitment equals the locally derived expected one. -/
theorem c5_roundtrip_receipt :
    (∀ (σ : Storage) (c : List Nat),
      submitTransfer σ c = Except.ok (σ, [VaultEvent.privateTransfer c]))
    ∧ ∀ expected emitted,
        verifyReceipt expected emitted = Outcome.matched ↔
          emitted = expected := by
  refine ⟨fun σ c => rfl, fun expected emitted => ?_⟩
  unfold verifyReceipt
  by_cases h : emitted = expected
  · simp [h]
  · simp [h]

theorem c5_witness :
    verifyReceipt (List.replicate 32 0) (List.replicate 32 0) =
      Outcome.matched :=
  (c5_roundtrip_receipt.2 (List.replicate 32 0) (List.replicate 32 0)).mpr
    rfl

/-- C10: submitTransfer is effect-free apart from its event. For every
storage state and every commitment: the call never reverts, leaves the
storage exactly as it was, emits exactly one `PrivateTransfer` event
carrying the commitment, and an immediate resubmission of the same
commitment from the resulting state succeeds and is identical to the
first call apart from the new event it emits. -/
theorem c10_frame_effect :
    ∀ (σ : Storage) (c : List Nat),
      submitTransfer σ c = Except.ok (σ, [VaultEvent.privateTransfer c])
      ∧ (∀ e, submitTransfer σ c ≠ Except.error e)
      ∧ (∀ σ2 ev, submitTransfer σ c = Except.ok (σ2, ev) →
          σ2 = σ ∧ ev = [VaultEvent.privateTransfer c])
      ∧ (∀ σ2 ev, submitTransfer σ c = Except.ok (σ2, ev) →
          submitTransfer σ2 c = submitTransfer σ c) := by
  intro σ c
  refine ⟨rfl, fun e h => by simp [submitTransfer] at h, ?_, ?_⟩
  · intro σ2 ev h
    simp only [submitTransfer, Except.ok.injEq, Prod.mk.injEq] at h
    exact ⟨h.1.symm, h.2.symm⟩
  · intro σ2 ev h
    simp only [submitTransfer, Except.ok.injEq, Prod.mk.injEq] at h
    rw [h.1]

theorem c10_witness :
    submitTransfer (fun _ => 0) (List.replicate 32 0) =
      Except.ok ((fun _ => 0), [VaultEvent.privateTransfer
        (List.replicate 32 0)]) :=
  (c10_frame_effect (fun _ => 0) (List.replicate 32 0)).1

/-!
Confirmation wait. relayer.js line 59 (`const receipt = await
tx.wait()`) and demo-complete-flow.js line 145 call ethers `tx.wait`
with no timeout argument: the promise resolves when the receipt
arrives and never settles when none does. The wait is modelled as a
function of the block at which the receipt arrives (`none` = never). -/

/-- Result of awaiting a submitted transaction. -/
inductive WaitResult where
  | confirmed : Nat → WaitResult
  | failedTimeout : WaitResult
  | pending : WaitResult
deriving DecidableEq

/-- `tx.wait()` as called by relayer.js (no timeout argument): resolves
with the receipt's block when one arrives, and otherwise waits
forever — it has no deadline input and no timeout outcome. -/
def txWait (arrivesAt : Option Nat) : WaitResult :=
  match arrivesAt with
  | some b => WaitResult.confirmed b
  | none => WaitResult.pending

/-- C7 counterexample: when the ledger never responds the pipeline
stays pending forever — it does not transition to `Failed(Timeout)` at
any deadline, because `tx.wait()` is invoked with no deadline at all. -/
theorem c7_counterexample :
    txWait none = WaitResult.pending
    ∧ WaitResult.pending ≠ WaitResult.failedTimeout := by
  exact ⟨rfl, by decide⟩

/-- C7 amended: the confirmation wait is unbounded. `tx.wait()` takes
no caller-supplied deadline; it confirms exactly when a receipt
arrives, never produces a timeout failure, and when no receipt ever
arrives it waits indefinitely. -/
theorem c7_unbounded_wait (arrivesAt : Option Nat) :
    txWait arrivesAt ≠ WaitResult.failedTimeout
    ∧ (txWait arrivesAt = WaitResult.pending ↔ arrivesAt = none)
    ∧ ∀ b, arrivesAt = some b → txWait arrivesAt = WaitResult.confirmed b := by
  refine ⟨?_, ?_, ?_⟩
  · cases arrivesAt <;> simp [txWait]
  · cases arrivesAt <;> simp [txWait]
  · intro b hb
    rw [hb]
    rfl

theorem c7_witness : txWait (some 7) = WaitResult.confirmed 7 :=
  (c7_unbounded_wait (some 7)).2.2 7 rfl

/-!
Mismatch surfacing. test-sepolia.js lines 186-219: after extracting the
emitted commitment, the script logs a success or mismatch line, but in
BOTH cases falls through to log "Test completed successfully" and exit
through `.then(() => process.exit(0))` with status 0. -/

/-- The tail of test-sepolia.js `main` after the receipt is parsed, as
the log lines it prints and the process exit status: the comparison
branch prints either the success lines or the mismatch line, execution
then continues to the completion message, and the process exits 0. -/
def sepoliaCheck (expected emitted : List Nat) : List String × Nat :=
  ((if emitted = expected then
      ["Success: Commitment correctly emitted in event",
       "Privacy maintained: No transaction details exposed on-chain"]
    else
      ["Error: Commitment mismatch"]) ++
    ["Test completed successfully"], 0)

/-- C8: the claim is right and the code is wrong. On a receipt whose
emitted commitment differs from the locally derived one, the script
detects the mismatch (`verifyReceipt` yields `mismatch` and the
mismatch line is printed) yet still prints the completion message and
terminates with exit status 0 — the integrity failure is logged but
swallowed rather than surfaced as a hard failure to the caller. -/
theorem c8_mismatch_swallowed :
    verifyReceipt (List.replicate 32 0) (1 :: List.replicate 31 0) =
      Outcome.mismatch
    ∧ sepoliaCheck (List.replicate 32 0) (1 :: List.replicate 31 0) =
        (["Error: Commitment mismatch", "Test completed successfully"], 0) := by
  constructor
  · rfl
  · rfl

/-!
Timestamp units. demo.js line 11 and relayer.js line 14 build the
record timestamp as `Date.now()`, the epoch clock in MILLISECONDS;
test-sepolia.js line 104 builds it as `Math.floor(Date.now() / 1000)`,
in seconds. All three are functions of the same clock reading `nowMs`
(milliseconds since the epoch). -/

/-- demo.js `payload.timestamp`: `Date.now()`, milliseconds. -/
def demoTimestamp (nowMs : Nat) : Nat := nowMs

/-- relayer.js `encryptedPayload.timestamp`: `Date.now()`,
milliseconds. -/
def relayerTimestamp (nowMs : Nat) : Nat := nowMs

/-- test-sepolia.js `timestamp`: `Math.floor(Date.now() / 1000)`,
seconds. -/
def sepoliaTimestamp (nowMs : Nat) : Nat := nowMs / 1000

/-- C9 counterexample: at the same clock reading the relayer-side
record timestamp differs from the Sepolia test's — the scripts do not
use the same seconds-since-epoch unit. -/
theorem c9_counterexample :
    relayerTimestamp 1700000000000 = 1700000000000
    ∧ sepoliaTimestamp 1700000000000 = 1700000000
    ∧ relayerTimestamp 1700000000000 ≠ sepoliaTimestamp 1700000000000 := by
  refine ⟨rfl, by decide, by decide⟩

/-- C9 amended: every record timestamp is an unsigned integer derived
from the epoch clock, and demo.js and relayer.js agree with each other
(both use `Date.now()`, milliseconds) — but test-sepolia.js uses
seconds (`Math.floor(Date.now() / 1000)`), so at every positive clock
reading the demo/relayer timestamp differs from the Sepolia test's. -/
theorem c9_timestamp_units (nowMs : Nat) (hpos : 0 < nowMs) :
    demoTimestamp nowMs = relayerTimestamp nowMs
    ∧ sepoliaTimestamp nowMs = nowMs / 1000
    ∧ relayerTimestamp nowMs ≠ sepoliaTimestamp nowMs := by
  refine ⟨rfl, rfl, ?_⟩
  unfold relayerTimestamp sepoliaTimestamp
  intro heq
  have hlt : nowMs / 1000 < nowMs := Nat.div_lt_self hpos (by decide)
  rw [← heq] at hlt
  exact lt_irrefl _ hlt

theorem c9_witness :
    demoTimestamp 1700000000000 = relayerTimestamp 1700000000000
    ∧ relayerTimestamp 1700000000000 ≠ sepoliaTimestamp 1700000000000 :=
  ⟨(c9_timestamp_units 1700000000000 (by decide)).1,
   (c9_timestamp_units 1700000000000 (by decide)).2.2⟩

end PrivTransfer
